import Mathlib

/-!
A shallow embedding of the `golog` logging library (package `golog`,
file `golog.go`) and proofs about its specified behaviour.

Modelling conventions:
* Go strings are Lean `String`s; the ANSI escape byte `\033` is `\x1b`.
* `Level` is Go `int32`; all values handled by the claims are the three
  small constants, so we model it as `Int`.
* The format-rendering engine (`fmt.Sprintf`) is an external collaborator
  and is passed as a parameter `render : String → List α → String`,
  where `α` is the type of variadic arguments.
* `time.Now()` and `runtime.Caller` are external inputs, passed as the
  parameters `now : String` and `caller : Option (String × Int)`.
* The console sink (`l.w`) is modelled by its identity (`Sink`) plus the
  list `console` of byte strings written to it, in order.
* The buffered channel `logChannel` is a FIFO list (head = oldest);
  `chanCap` records its capacity.
* The file system is a map from path to contents plus the process's
  standard output and standard error streams (`fmt.Println` writes to
  standard output).  Success or failure of `os.OpenFile` at a given
  dequeue step is an environment input (`openOk`), as is the hourly
  bucket tag sampled from the clock at that step.
-/

namespace Golog

/-- Go `Level int32`, modelled as `Int`. -/
abbrev Level := Int

def LevelDebug : Level := 0

def LevelInfo : Level := 1

def LevelError : Level := 2

def Reset : String := "\x1b[0m"

def Red : String := "\x1b[31m"

def Green : String := "\x1b[32m"

def Yellow : String := "\x1b[33m"

def Whitespace : String := " "

def Newline : String := "\n"

/-- `InfoLevel = Green + "[INFO]" + Reset` -/
def InfoLevel : String := Green ++ "[INFO]" ++ Reset

/-- `DebugLevel = Yellow + "[DEBUG]" + Reset` -/
def DebugLevel : String := Yellow ++ "[DEBUG]" ++ Reset

/-- `ErrorLevel = Red + "[ERROR]" + Reset` -/
def ErrorLevel : String := Red ++ "[ERROR]" ++ Reset

/-- Identity of a byte-stream sink. -/
inductive Sink where
  | stderr : Sink
  | stdout : Sink
  | buffer : Sink
deriving DecidableEq, Repr

/-- The `Logger` struct.  `console` records the writes made to `l.w`.
`logFile`/`currentHour` are the file-writer fields of the Go struct. -/
structure Logger (α : Type) where
  level : Level
  showDetail : Bool
  processors : List (String → List α → String × List α)
  w : Sink
  console : List String
  logChannel : List String
  chanCap : Nat
  logFile : Option String
  currentHour : String

/-- `NewLogger`: level Info, writer stderr, detail off, channel capacity
100; the remaining fields are Go zero values (nil / empty). -/
def NewLogger (α : Type) : Logger α :=
  { level := LevelInfo
    showDetail := false
    processors := []
    w := Sink.stderr
    console := []
    logChannel := []
    chanCap := 100
    logFile := none
    currentHour := "" }

/-- The process-wide default logger built by `init()`. -/
def defaultLogger (α : Type) : Logger α := NewLogger α

/-- `Logger.SetLevel` (the atomic store, sequentialised). -/
def Logger.SetLevel {α : Type} (l : Logger α) (level : Level) : Logger α :=
  { l with level := level }

/-- `Logger.GetLevel` (the atomic load, sequentialised). -/
def Logger.GetLevel {α : Type} (l : Logger α) : Level :=
  l.level

/-- `Logger.AddProcessor` appends to the processor slice. -/
def Logger.AddProcessor {α : Type} (l : Logger α)
    (p : String → List α → String × List α) : Logger α :=
  { l with processors := l.processors ++ [p] }

/-- `Logger.getContent`: run every processor over `(format, v)` in slice
order, then render the final pair. -/
def Logger.getContent {α : Type} (l : Logger α)
    (render : String → List α → String) (format : String) (v : List α) :
    String :=
  let fv := l.processors.foldl (fun p proc => proc p.1 p.2) (format, v)
  render fv.1 fv.2

/-- The closure `getFileLocation` inside `assembleMsg`:
`fmt.Sprintf("%s:%d", filepath.Base(file), line) + " "`, with the
fallback values used when `runtime.Caller` fails. -/
def getFileLocation (caller : Option (String × Int)) : String :=
  match caller with
  | some fl => fl.1 ++ ":" ++ toString fl.2 ++ " "
  | none => "unknown file" ++ ":" ++ toString (-1 : Int) ++ " "

/-- `Logger.assembleMsg`: leading space, then (when `showDetail`) the
timestamp, a space and the caller location, then the rendered content,
a trailing space and a newline. -/
def Logger.assembleMsg {α : Type} (l : Logger α)
    (render : String → List α → String) (now : String)
    (caller : Option (String × Int)) (format : String) (v : List α) :
    String :=
  Whitespace
    ++ (if l.showDetail then now ++ Whitespace ++ getFileLocation caller
        else "")
    ++ l.getContent render format v
    ++ Whitespace ++ Newline

/-- `Logger.Info`: gate on `l.level > LevelInfo`, then write the colored
line to the sink and send the plainly tagged line to the channel. -/
def Logger.Info {α : Type} (l : Logger α)
    (render : String → List α → String) (now : String)
    (caller : Option (String × Int)) (format : String) (v : List α) :
    Logger α :=
  if LevelInfo < l.level then l
  else
    let msg := l.assembleMsg render now caller format v
    { l with
        console := l.console ++ [InfoLevel ++ msg]
        logChannel := l.logChannel ++ ["[INFO]" ++ msg] }

/-- `Logger.Debug`: gate on `l.level > LevelDebug`. -/
def Logger.Debug {α : Type} (l : Logger α)
    (render : String → List α → String) (now : String)
    (caller : Option (String × Int)) (format : String) (v : List α) :
    Logger α :=
  if LevelDebug < l.level then l
  else
    let msg := l.assembleMsg render now caller format v
    { l with
        console := l.console ++ [DebugLevel ++ msg]
        logChannel := l.logChannel ++ ["[DEBUG]" ++ msg] }

/-- `Logger.Error`: gate on `l.level > LevelError`. -/
def Logger.Error {α : Type} (l : Logger α)
    (render : String → List α → String) (now : String)
    (caller : Option (String × Int)) (format : String) (v : List α) :
    Logger α :=
  if LevelError < l.level then l
  else
    let msg := l.assembleMsg render now caller format v
    { l with
        console := l.console ++ [ErrorLevel ++ msg]
        logChannel := l.logChannel ++ ["[ERROR]" ++ msg] }

/-- The file-writer fields of the `Logger` struct, owned by the single
consumer goroutine. -/
structure WriterState where
  logFile : Option String
  currentHour : String
deriving DecidableEq, Repr

/-- The file system and the process's diagnostic streams.  `files p`
is `some c` when a file exists at path `p` with contents `c`. -/
structure FileSys where
  files : String → Option String
  stdoutLines : List String
  stderrLines : List String

/-- Environment sampled at one dequeue step: the hourly bucket tag
`time.Now().Format("2006-01-02_15")`, whether `os.OpenFile` would
succeed at this step, and the error text it would produce otherwise. -/
structure TimeEnv where
  tag : String
  openOk : Bool
  errMsg : String
deriving DecidableEq, Repr

/-- `Logger.writeToFile`.  Rotation: when no file is open or the stored
hour differs from the sampled tag, close the old file, open
`log_<tag>.log` with `O_APPEND|O_CREATE|O_WRONLY` (create empty when
absent, never truncate) and update the fields; on open error, print the
error via `fmt.Println` (standard output) and return, dropping `msg`.
Finally append `msg` to the open file. -/
def writeToFile (s : WriterState) (fs : FileSys) (e : TimeEnv)
    (msg : String) : WriterState × FileSys :=
  if s.logFile = none ∨ s.currentHour ≠ e.tag then
    if e.openOk then
      ({ logFile := some ("log_" ++ e.tag ++ ".log"), currentHour := e.tag },
       { fs with
           files := fun f =>
             if f = "log_" ++ e.tag ++ ".log" then
               some ((fs.files ("log_" ++ e.tag ++ ".log")).getD "" ++ msg)
             else fs.files f })
    else
      (s, { fs with
              stdoutLines :=
                fs.stdoutLines ++ ["Error opening file: " ++ e.errMsg] })
  else
    match s.logFile with
    | some p =>
        (s, { fs with
                files := fun f =>
                  if f = p then some ((fs.files p).getD "" ++ msg)
                  else fs.files f })
    | none => (s, fs)

/-- `Logger.startFileWriter`: the single consumer draining the channel
in FIFO order, calling `writeToFile` on each dequeued message with the
environment sampled at that step. -/
def startFileWriter (s : WriterState) (fs : FileSys)
    (evs : List (TimeEnv × String)) : WriterState × FileSys :=
  match evs with
  | [] => (s, fs)
  | (e, msg) :: rest =>
      let r := writeToFile s fs e msg
      startFileWriter r.1 r.2 rest

/-- Number of newline bytes in a string (to count log lines in a file). -/
def nlCount (s : String) : Nat :=
  s.toList.count '\n'

/-- Concatenation of a list of strings, in order. -/
def joinAll : List String → String
  | [] => ""
  | m :: r => m ++ joinAll r

/-- A concrete instantiation of the external renderer: `fmt.Sprintf`
applied to a format string with no verbs and no arguments returns the
format string unchanged, which is all the concrete claims exercise. -/
def renderU : String → List Unit → String := fun f _ => f

/-- A processor that prepends `"A"` to the format (claim C6's P1). -/
def procA : String → List Unit → String × List Unit :=
  fun f v => ("A" ++ f, v)

/-- A processor that prepends `"B"` to the format (claim C6's P2). -/
def procB : String → List Unit → String × List Unit :=
  fun f v => ("B" ++ f, v)

/-- A file system with no files and empty diagnostic streams. -/
def emptyFS : FileSys :=
  { files := fun _ => none, stdoutLines := [], stderrLines := [] }

end Golog

namespace Golog

/-- C1: a logging call at severity S (Debug = `LevelDebug`,
Info = `LevelInfo`, Error = `LevelError`) is suppressed — the logger is
returned unchanged, with no console write and no queue insertion —
exactly when S is strictly below the stored threshold; when S is at or
above the threshold the call appends one line to the console sink and
one line to the persistence queue. -/
theorem golog_level_gate {α : Type} (l : Logger α)
    (render : String → List α → String) (now : String)
    (caller : Option (String × Int)) (format : String) (v : List α) :
    ((LevelDebug < l.level → l.Debug render now caller format v = l) ∧
     (l.level ≤ LevelDebug →
        (l.Debug render now caller format v).console
          = l.console
              ++ [DebugLevel ++ l.assembleMsg render now caller format v] ∧
        (l.Debug render now caller format v).logChannel
          = l.logChannel
              ++ ["[DEBUG]" ++ l.assembleMsg render now caller format v])) ∧
    ((LevelInfo < l.level → l.Info render now caller format v = l) ∧
     (l.level ≤ LevelInfo →
        (l.Info render now caller format v).console
          = l.console
              ++ [InfoLevel ++ l.assembleMsg render now caller format v] ∧
        (l.Info render now caller format v).logChannel
          = l.logChannel
              ++ ["[INFO]" ++ l.assembleMsg render now caller format v])) ∧
    ((LevelError < l.level → l.Error render now caller format v = l) ∧
     (l.level ≤ LevelError →
        (l.Error render now caller format v).console
          = l.console
              ++ [ErrorLevel ++ l.assembleMsg render now caller format v] ∧
        (l.Error render now caller format v).logChannel
          = l.logChannel
              ++ ["[ERROR]" ++ l.assembleMsg render now caller format v])) := by
  unfold Logger.Debug Logger.Info Logger.Error
  refine ⟨⟨fun h => ?_, fun h => ?_⟩, ⟨fun h => ?_, fun h => ?_⟩,
          fun h => ?_, fun h => ?_⟩
  · rw [if_pos h]
  · rw [if_neg (not_lt.mpr h)]; exact ⟨rfl, rfl⟩
  · rw [if_pos h]
  · rw [if_neg (not_lt.mpr h)]; exact ⟨rfl, rfl⟩
  · rw [if_pos h]
  · rw [if_neg (not_lt.mpr h)]; exact ⟨rfl, rfl⟩

/-- C1 witness: the default logger (threshold Info) suppresses a Debug
call and emits an Info call. -/
theorem golog_level_gate_w :
    (LevelDebug < (NewLogger Unit).level ∧
      (NewLogger Unit).Debug renderU "t" none "x" [] = NewLogger Unit) ∧
    ((NewLogger Unit).level ≤ LevelInfo ∧
      ((NewLogger Unit).Info renderU "t" none "x" []).console
        = (NewLogger Unit).console
            ++ [InfoLevel
                ++ (NewLogger Unit).assembleMsg renderU "t" none "x" []]) :=
  ⟨⟨by decide,
    (golog_level_gate (NewLogger Unit) renderU "t" none "x" []).1.1
      (by decide)⟩,
   ⟨by decide,
    ((golog_level_gate (NewLogger Unit) renderU "t" none "x" []).2.1.2
      (by decide)).1⟩⟩

/-- C9: the process-wide default logger is built once by `init` via
`NewLogger` with threshold Info, sink standard error, detail off, an
empty processor chain, channel capacity 100 and no open file; and for
every level L, `GetLevel` after `SetLevel L` returns L. -/
theorem default_logger_init :
    (∀ α : Type,
       (defaultLogger α).level = LevelInfo ∧
       (defaultLogger α).w = Sink.stderr ∧
       (defaultLogger α).showDetail = false ∧
       (defaultLogger α).processors = [] ∧
       (defaultLogger α).chanCap = 100 ∧
       (defaultLogger α).logFile = none) ∧
    (∀ (α : Type) (l : Logger α) (L : Level),
       (l.SetLevel L).GetLevel = L) := by
  exact ⟨fun α => ⟨rfl, rfl, rfl, rfl, rfl, rfl⟩, fun α l L => rfl⟩

/-- C10: when the threshold is one of the three defined levels, an
Error call is never suppressed: it always appends a console line and a
queued line. -/
theorem error_never_suppressed {α : Type} (l : Logger α)
    (render : String → List α → String) (now : String)
    (caller : Option (String × Int)) (format : String) (v : List α)
    (h : l.level = LevelDebug ∨ l.level = LevelInfo ∨
         l.level = LevelError) :
    (l.Error render now caller format v).console
      = l.console ++ [ErrorLevel ++ l.assembleMsg render now caller format v] ∧
    (l.Error render now caller format v).logChannel
      = l.logChannel ++ ["[ERROR]" ++ l.assembleMsg render now caller format v] := by
  have hle : ¬ LevelError < l.level := by
    rcases h with h | h | h <;>
      simp [h, LevelDebug, LevelInfo, LevelError]
  unfold Logger.Error
  rw [if_neg hle]
  exact ⟨rfl, rfl⟩

/-- C10 witness: with the threshold set to Debug, an Error call emits. -/
theorem error_never_suppressed_w :
    (((NewLogger Unit).SetLevel LevelDebug).level = LevelDebug ∨
      ((NewLogger Unit).SetLevel LevelDebug).level = LevelInfo ∨
      ((NewLogger Unit).SetLevel LevelDebug).level = LevelError) ∧
    (((NewLogger Unit).SetLevel LevelDebug).Error renderU "t" none "x" []).console
      = ((NewLogger Unit).SetLevel LevelDebug).console
          ++ [ErrorLevel
              ++ ((NewLogger Unit).SetLevel LevelDebug).assembleMsg
                   renderU "t" none "x" []] :=
  ⟨Or.inl rfl,
   (error_never_suppressed ((NewLogger Unit).SetLevel LevelDebug)
      renderU "t" none "x" [] (Or.inl rfl)).1⟩

/-- C5 counterexample: with threshold Info and an empty processor
chain, `info("x")` writes the ANSI-colorized tag, so the console bytes
are not the plain string `"[INFO] x \n"`. -/
theorem info_console_plain_cex :
    ((NewLogger Unit).Info renderU "t" none "x" []).console
      ≠ ["[INFO] x \n"] := by
  decide

/-- C5 (amended): with threshold Info and an empty processor chain,
`info("x")` writes to the console sink exactly the bytes
`"\x1b[32m[INFO]\x1b[0m x \n"` — the colorized tag, a space, the body,
a space and a newline. -/
theorem info_console_colored :
    ((NewLogger Unit).Info renderU "t" none "x" []).console
      = ["\x1b[32m[INFO]\x1b[0m x \n"] := by
  decide

/-- C6 counterexample: registering the A-prepending processor first and
the B-prepending processor second yields the body `"BAx"` for the call
with format `"x"`, whose first two bytes are `"BA"`, not `"AB"`. -/
theorem processor_order_ab_cex :
    (((NewLogger Unit).AddProcessor procA).AddProcessor procB).getContent
        renderU "x" [] = "BAx" ∧
    ("BAx".take 2 = "AB") = False := by
  constructor
  · decide
  · decide

/-- C6 (amended): processors run in registration order, each consuming
the previous one's output, so the processor registered last acts last
and its prepended byte ends up first: P1 prepending "A" then P2
prepending "B" yields a body with first bytes `"BA"`. -/
theorem processor_order_reg (l : Logger Unit) (h : l.processors = []) :
    ((l.AddProcessor procA).AddProcessor procB).getContent renderU "x" []
        = "BAx" ∧
    "BAx".take 2 = "BA" := by
  constructor
  · unfold Logger.getContent Logger.AddProcessor
    simp [h, procA, procB, renderU]
  · decide

/-- C6 amended-claim witness: the amended order property at the default
logger, whose chain is empty. -/
theorem processor_order_reg_w :
    (NewLogger Unit).processors = [] ∧
    (((NewLogger Unit).AddProcessor procA).AddProcessor procB).getContent
        renderU "x" [] = "BAx" :=
  ⟨rfl, (processor_order_reg (NewLogger Unit) rfl).1⟩

end Golog

namespace Golog

/-- C7: every assembled line (here prefixed with an arbitrary level
tag, as each emitting call does) has the shape
tag ++ " " ++ [timestamp ++ " " ++ file:line ++ " "] ++ body ++ " " ++ "\n",
where the bracketed timestamp/caller segment is present exactly when
detail mode is on, and the rendered body is always followed by a single
trailing space before the newline. -/
theorem assembled_line_shape {α : Type} (l : Logger α)
    (render : String → List α → String) (now : String)
    (caller : Option (String × Int)) (format : String) (v : List α)
    (tag : String) :
    (l.showDetail = false →
       tag ++ l.assembleMsg render now caller format v
         = tag ++ Whitespace ++ l.getContent render format v
             ++ Whitespace ++ Newline) ∧
    (l.showDetail = true →
       tag ++ l.assembleMsg render now caller format v
         = tag ++ Whitespace ++ now ++ Whitespace ++ getFileLocation caller
             ++ l.getContent render format v ++ Whitespace ++ Newline) := by
  constructor <;> intro h <;>
    simp [Logger.assembleMsg, h, String.append_assoc]

/-- C7 witness: the shape at a concrete logger in each detail mode. -/
theorem assembled_line_shape_w :
    ((NewLogger Unit).showDetail = false ∧
      "[INFO]" ++ (NewLogger Unit).assembleMsg renderU "now" none "x" []
        = "[INFO]" ++ Whitespace
            ++ (NewLogger Unit).getContent renderU "x" []
            ++ Whitespace ++ Newline) ∧
    (({ NewLogger Unit with showDetail := true } : Logger Unit).showDetail
        = true ∧
      "[INFO]" ++ ({ NewLogger Unit with showDetail := true } :
            Logger Unit).assembleMsg renderU "now" (some ("main.go", 8))
            "x" []
        = "[INFO]" ++ Whitespace ++ "now" ++ Whitespace
            ++ getFileLocation (some ("main.go", 8))
            ++ ({ NewLogger Unit with showDetail := true } :
                  Logger Unit).getContent renderU "x" []
            ++ Whitespace ++ Newline) :=
  ⟨⟨rfl,
    (assembled_line_shape (NewLogger Unit) renderU "now" none "x" []
        "[INFO]").1 rfl⟩,
   ⟨rfl,
    (assembled_line_shape ({ NewLogger Unit with showDetail := true })
        renderU "now" (some ("main.go", 8)) "x" [] "[INFO]").2 rfl⟩⟩

/-- C8 counterexample: for the call `info("x")` on the default logger,
the line written to the console sink and the line enqueued for file
persistence are not identical: the console tag carries ANSI color
escapes while the queued tag is the plain `[INFO]`. -/
theorem console_file_identical_cex :
    ((NewLogger Unit).Info renderU "t" none "x" []).console
      ≠ ((NewLogger Unit).Info renderU "t" none "x" []).logChannel := by
  decide

/-- C8 (amended): for every emitted call, the queued line and the
console line share the identical text after the tag (same optional
detail segment, same body, same trailing space and newline), but the
console tag is the ANSI-colorized wrapping of the plain bracketed tag
that is used for the file line. -/
theorem console_file_suffix_eq {α : Type} (l : Logger α)
    (render : String → List α → String) (now : String)
    (caller : Option (String × Int)) (format : String) (v : List α) :
    (l.level ≤ LevelInfo →
       (l.Info render now caller format v).console
         = l.console
             ++ [(Green ++ "[INFO]" ++ Reset)
                 ++ l.assembleMsg render now caller format v] ∧
       (l.Info render now caller format v).logChannel
         = l.logChannel
             ++ ["[INFO]" ++ l.assembleMsg render now caller format v]) ∧
    (l.level ≤ LevelDebug →
       (l.Debug render now caller format v).console
         = l.console
             ++ [(Yellow ++ "[DEBUG]" ++ Reset)
                 ++ l.assembleMsg render now caller format v] ∧
       (l.Debug render now caller format v).logChannel
         = l.logChannel
             ++ ["[DEBUG]" ++ l.assembleMsg render now caller format v]) ∧
    (l.level ≤ LevelError →
       (l.Error render now caller format v).console
         = l.console
             ++ [(Red ++ "[ERROR]" ++ Reset)
                 ++ l.assembleMsg render now caller format v] ∧
       (l.Error render now caller format v).logChannel
         = l.logChannel
             ++ ["[ERROR]" ++ l.assembleMsg render now caller format v]) := by
  unfold Logger.Info Logger.Debug Logger.Error
  refine ⟨fun h => ?_, fun h => ?_, fun h => ?_⟩ <;>
    rw [if_neg (not_lt.mpr h)] <;> exact ⟨rfl, rfl⟩

/-- C8 amended-claim witness: the console/file pairing at the default
logger for an Info call. -/
theorem console_file_suffix_eq_w :
    (NewLogger Unit).level ≤ LevelInfo ∧
    ((NewLogger Unit).Info renderU "t" none "x" []).logChannel
      = (NewLogger Unit).logChannel
          ++ ["[INFO]" ++ (NewLogger Unit).assembleMsg renderU "t" none "x" []] :=
  ⟨by decide,
   ((console_file_suffix_eq (NewLogger Unit) renderU "t" none "x" []).1
      (by decide)).2⟩

end Golog

namespace Golog

/-- C3: on each dequeued line, when no file is open or the sampled
hourly bucket tag differs from the stored one, the consumer rotates:
it opens `log_<tag>.log` in append-create mode (prior contents, if any,
are kept as a prefix) and writes the line; otherwise it appends the
line to the already-open file; and no call ever truncates or deletes
any existing file — every existing file's contents persist as a prefix
of its new contents. -/
theorem writeToFile_rotation (s : WriterState) (fs : FileSys)
    (e : TimeEnv) (msg : String) :
    ((s.logFile = none ∨ s.currentHour ≠ e.tag) → e.openOk = true →
       writeToFile s fs e msg
         = ({ logFile := some ("log_" ++ e.tag ++ ".log"),
              currentHour := e.tag },
            { fs with
                files := fun f =>
                  if f = "log_" ++ e.tag ++ ".log" then
                    some ((fs.files ("log_" ++ e.tag ++ ".log")).getD ""
                            ++ msg)
                  else fs.files f })) ∧
    (∀ p, s.logFile = some p → s.currentHour = e.tag →
       writeToFile s fs e msg
         = (s, { fs with
                   files := fun f =>
                     if f = p then some ((fs.files p).getD "" ++ msg)
                     else fs.files f })) ∧
    (∀ p c, fs.files p = some c →
       ∃ d, (writeToFile s fs e msg).2.files p = some (c ++ d)) := by
  refine ⟨fun h hok => ?_, fun p hp ht => ?_, fun p c hpc => ?_⟩
  · unfold writeToFile
    rw [if_pos h, if_pos hok]
  · have hc : ¬ (s.logFile = none ∨ s.currentHour ≠ e.tag) := by
      simp [hp, ht]
    unfold writeToFile
    rw [if_neg hc, hp]
  · unfold writeToFile
    by_cases h : s.logFile = none ∨ s.currentHour ≠ e.tag
    · rw [if_pos h]
      by_cases hok : e.openOk = true
      · rw [if_pos hok]
        by_cases hp : p = "log_" ++ e.tag ++ ".log"
        · subst hp
          exact ⟨msg, by simp [hpc]⟩
        · exact ⟨"", by simp [hp, hpc]⟩
      · rw [if_neg hok]
        exact ⟨"", by simp [hpc]⟩
    · rw [if_neg h]
      rcases hq : s.logFile with _ | q
      · exact ⟨"", by simp [hpc]⟩
      · by_cases hp : p = q
        · subst hp
          exact ⟨msg, by simp [hpc]⟩
        · exact ⟨"", by simp [hp, hpc]⟩

/-- C3 witness: from the initial writer state, a dequeued line creates
the bucket file and the file then holds exactly that line. -/
theorem writeToFile_rotation_w :
    ((⟨none, ""⟩ : WriterState).logFile = none ∨
      (⟨none, ""⟩ : WriterState).currentHour ≠ "2024-09-11_22") ∧
    (writeToFile ⟨none, ""⟩ emptyFS
        ⟨"2024-09-11_22", true, ""⟩ "m").2.files "log_2024-09-11_22.log"
      = some "m" := by
  refine ⟨Or.inl rfl, ?_⟩
  have h := (writeToFile_rotation ⟨none, ""⟩ emptyFS
      ⟨"2024-09-11_22", true, ""⟩ "m").1 (Or.inl rfl) rfl
  rw [h]
  decide

end Golog

namespace Golog

/-- Newline count distributes over string append. -/
theorem nlCount_append (a b : String) :
    nlCount (a ++ b) = nlCount a + nlCount b := by
  simp [nlCount, String.toList, String.data_append, List.count_append]

/-- A concatenation of single-line strings has one newline per string. -/
theorem nlCount_joinAll (msgs : List String)
    (h : ∀ m ∈ msgs, nlCount m = 1) :
    nlCount (joinAll msgs) = msgs.length := by
  induction msgs with
  | nil => simp [joinAll, nlCount]
  | cons m r ih =>
      rw [joinAll, nlCount_append, h m (by simp),
        ih (fun x hx => h x (by simp [hx]))]
      simp [Nat.add_comm]

/-- Once the consumer holds the bucket's file open with the matching
stored hour, draining any queue of messages sampled in that bucket
appends them, in FIFO order, to that file, and leaves the writer state
unchanged. -/
theorem startFileWriter_steady (t : String) :
    ∀ (evs : List (TimeEnv × String)) (fs : FileSys) (c : String),
      (∀ p ∈ evs, p.1.tag = t) →
      fs.files ("log_" ++ t ++ ".log") = some c →
      (startFileWriter ⟨some ("log_" ++ t ++ ".log"), t⟩ fs evs).1
          = ⟨some ("log_" ++ t ++ ".log"), t⟩ ∧
      (startFileWriter ⟨some ("log_" ++ t ++ ".log"), t⟩ fs evs).2.files
          ("log_" ++ t ++ ".log")
        = some (c ++ joinAll (evs.map Prod.snd)) := by
  intro evs
  induction evs with
  | nil =>
      intro fs c h hc
      exact ⟨rfl, by simp [startFileWriter, joinAll, hc]⟩
  | cons p rest ih =>
      intro fs c h hc
      obtain ⟨e, m⟩ := p
      have ht : e.tag = t := h (e, m) (by simp)
      have hcond : ¬ ((⟨some ("log_" ++ t ++ ".log"), t⟩ :
          WriterState).logFile = none ∨
          (⟨some ("log_" ++ t ++ ".log"), t⟩ :
            WriterState).currentHour ≠ e.tag) := by
        simp [ht]
      have hw : writeToFile ⟨some ("log_" ++ t ++ ".log"), t⟩ fs e m
          = (⟨some ("log_" ++ t ++ ".log"), t⟩,
             { fs with
                 files := fun f =>
                   if f = "log_" ++ t ++ ".log" then
                     some ((fs.files ("log_" ++ t ++ ".log")).getD ""
                             ++ m)
                   else fs.files f }) := by
        unfold writeToFile
        rw [if_neg hcond]
      have hstep := ih
          { fs with
              files := fun f =>
                if f = "log_" ++ t ++ ".log" then
                  some ((fs.files ("log_" ++ t ++ ".log")).getD "" ++ m)
                else fs.files f }
          (c ++ m)
          (fun q hq => h q (by simp [hq]))
          (by simp [hc])
      simp only [startFileWriter, hw]
      refine ⟨hstep.1, ?_⟩
      rw [hstep.2]
      simp [joinAll, String.append_assoc]

/-- C2: draining a queue of messages all sampled within one hourly
bucket whose file opens succeed, starting from the initial writer state
and a file system where the bucket file does not yet exist, puts
exactly the concatenation of the enqueued messages, in enqueue (FIFO)
order, into the bucket file — no message duplicated, dropped or
reordered — and when each message is a single line, the file holds
exactly N lines for N messages. -/
theorem file_fifo_order (t : String) (evs : List (TimeEnv × String))
    (fs : FileSys)
    (hne : evs ≠ [])
    (h : ∀ p ∈ evs, p.1.tag = t ∧ p.1.openOk = true)
    (hfresh : fs.files ("log_" ++ t ++ ".log") = none)
    (hn : ∀ p ∈ evs, nlCount p.2 = 1) :
    (startFileWriter ⟨none, ""⟩ fs evs).2.files ("log_" ++ t ++ ".log")
        = some (joinAll (evs.map Prod.snd)) ∧
    nlCount (joinAll (evs.map Prod.snd)) = evs.length := by
  refine ⟨?_, ?_⟩
  · cases evs with
    | nil => exact absurd rfl hne
    | cons p rest =>
        obtain ⟨e, m⟩ := p
        have ht : e.tag = t := (h (e, m) (by simp)).1
        have hok : e.openOk = true := (h (e, m) (by simp)).2
        have hcond : (⟨none, ""⟩ : WriterState).logFile = none ∨
            (⟨none, ""⟩ : WriterState).currentHour ≠ e.tag := Or.inl rfl
        have hw : writeToFile ⟨none, ""⟩ fs e m
            = (⟨some ("log_" ++ e.tag ++ ".log"), e.tag⟩,
               { fs with
                   files := fun f =>
                     if f = "log_" ++ e.tag ++ ".log" then
                       some ((fs.files ("log_" ++ e.tag ++ ".log")).getD ""
                               ++ m)
                     else fs.files f }) := by
          unfold writeToFile
          rw [if_pos hcond, if_pos hok]
        subst ht
        have hstep := startFileWriter_steady e.tag rest
            { fs with
                files := fun f =>
                  if f = "log_" ++ e.tag ++ ".log" then
                    some ((fs.files ("log_" ++ e.tag ++ ".log")).getD ""
                            ++ m)
                  else fs.files f }
            ((fs.files ("log_" ++ e.tag ++ ".log")).getD "" ++ m)
            (fun q hq => (h q (by simp [hq])).1)
            (by simp)
        have hfresh2 : fs.files ("log_" ++ (e.tag ++ ".log")) = none := by
          rw [← String.append_assoc]
          exact hfresh
        simp only [startFileWriter, hw]
        rw [hstep.2]
        simp [hfresh, hfresh2, joinAll, String.append_assoc]
  · have hone := nlCount_joinAll (evs.map Prod.snd)
      (by
        intro m hm
        rcases List.mem_map.mp hm with ⟨p, hp, hpm⟩
        exact hpm ▸ hn p hp)
    simpa using hone

/-- C2 witness: two single-line messages enqueued in one bucket land in
that bucket's file concatenated in enqueue order, two lines total. -/
theorem file_fifo_order_w :
    (startFileWriter ⟨none, ""⟩ emptyFS
        [(⟨"2024-09-11_22", true, ""⟩, "[INFO] a \n"),
         (⟨"2024-09-11_22", true, ""⟩, "[INFO] b \n")]).2.files
        ("log_" ++ "2024-09-11_22" ++ ".log")
      = some "[INFO] a \n[INFO] b \n" ∧
    nlCount "[INFO] a \n[INFO] b \n" = 2 := by
  have h := file_fifo_order "2024-09-11_22"
      [(⟨"2024-09-11_22", true, ""⟩, "[INFO] a \n"),
       (⟨"2024-09-11_22", true, ""⟩, "[INFO] b \n")]
      emptyFS (by decide) (by decide) rfl (by decide)
  refine ⟨?_, by decide⟩
  rw [h.1]
  decide

/-- C4 counterexample: when the bucket-file open fails, the code calls
`fmt.Println`, which writes the diagnostic to standard output; standard
error receives nothing, so the report does not go to a standard-error
path. -/
theorem openfail_stderr_cex :
    (writeToFile ⟨none, ""⟩ emptyFS
        ⟨"2024-09-11_22", false, "permission denied"⟩ "m").2.stdoutLines
      = ["Error opening file: permission denied"] ∧
    (writeToFile ⟨none, ""⟩ emptyFS
        ⟨"2024-09-11_22", false, "permission denied"⟩ "m").2.stderrLines
      = [] := by
  exact ⟨rfl, rfl⟩

/-- C4 (amended): when the open of the bucket file fails, the consumer
prints the error to the standard-output diagnostic path, drops the
pending line (no file anywhere is changed), does not write to standard
error, does not retry within the call and does not crash; the writer
state is left unchanged, so a subsequently dequeued line with the same
bucket tag independently re-attempts the open and, if it now succeeds,
its line is written. -/
theorem openfail_behavior (s : WriterState) (fs : FileSys) (e : TimeEnv)
    (msg : String)
    (hrot : s.logFile = none ∨ s.currentHour ≠ e.tag)
    (hfail : e.openOk = false) :
    writeToFile s fs e msg
      = (s, { fs with
                stdoutLines :=
                  fs.stdoutLines
                    ++ ["Error opening file: " ++ e.errMsg] }) ∧
    (writeToFile s fs e msg).2.files = fs.files ∧
    (writeToFile s fs e msg).2.stderrLines = fs.stderrLines ∧
    (∀ e' msg', e'.tag = e.tag → e'.openOk = true →
       (writeToFile (writeToFile s fs e msg).1
           (writeToFile s fs e msg).2 e' msg').2.files
           ("log_" ++ e'.tag ++ ".log")
         = some ((fs.files ("log_" ++ e'.tag ++ ".log")).getD ""
                   ++ msg')) := by
  have hw : writeToFile s fs e msg
      = (s, { fs with
                stdoutLines :=
                  fs.stdoutLines
                    ++ ["Error opening file: " ++ e.errMsg] }) := by
    unfold writeToFile
    rw [if_pos hrot, if_neg (by simp [hfail])]
  refine ⟨hw, by rw [hw], by rw [hw], ?_⟩
  intro e' msg' ht' hok'
  rw [hw]
  have hrot' : s.logFile = none ∨ s.currentHour ≠ e'.tag := by
    rw [ht']; exact hrot
  unfold writeToFile
  rw [if_pos hrot', if_pos hok']
  simp

/-- C4 amended-claim witness: a concrete failed open reports to
standard output, drops the line, and the next dequeue with the same tag
opens the file and writes its line. -/
theorem openfail_behavior_w :
    ((⟨none, ""⟩ : WriterState).logFile = none ∨
      (⟨none, ""⟩ : WriterState).currentHour ≠ "2024-09-11_22") ∧
    writeToFile ⟨none, ""⟩ emptyFS
        ⟨"2024-09-11_22", false, "permission denied"⟩ "m"
      = (⟨none, ""⟩,
         { emptyFS with
             stdoutLines :=
               emptyFS.stdoutLines
                 ++ ["Error opening file: " ++ "permission denied"] }) :=
  ⟨Or.inl rfl,
   (openfail_behavior ⟨none, ""⟩ emptyFS
      ⟨"2024-09-11_22", false, "permission denied"⟩ "m"
      (Or.inl rfl) rfl).1⟩

end Golog
